import Mathlib

/-!
Shallow embedding of the PopLogic balloon-factory game state logic
(src/script.js).  Randomness is modelled by passing the drawn values
explicitly: each call of getRandomInt / Math.random in the source becomes
an input of the corresponding Lean function, so theorems quantify over
every possible sequence of draws.  JS numbers holding counters and scores
are modelled as Nat (they are only ever incremented by non-negative
amounts); the level-3 temperature is an Int; the fractional arithmetic of
the level-3 skew and of the strategy records is modelled over Rat.
-/

/-- The four balloon colors of BALLOON_CONFIG. -/
inductive Color
  | red | blue | green | yellow
deriving DecidableEq, Repr

/-- One entry of the per-color statistics table: the statsTemplate
object score/pops/count/pumps of resetStats. -/
structure ColorStat where
  score : Nat
  pops : Nat
  count : Nat
  pumps : Nat
deriving DecidableEq, Repr

/-- statsTemplate = score 0, pops 0, count 0, pumps 0. -/
def statsTemplate : ColorStat := ⟨0, 0, 0, 0⟩

/-- The stats mapping of one level: one ColorStat per color. -/
structure Stats where
  red : ColorStat
  blue : ColorStat
  green : ColorStat
  yellow : ColorStat
deriving DecidableEq, Repr

/-- Field lookup stats[color]. -/
def Stats.get (s : Stats) : Color → ColorStat
  | .red => s.red
  | .blue => s.blue
  | .green => s.green
  | .yellow => s.yellow

/-- In-place mutation of one color entry, stats[color] = f(stats[color]). -/
def Stats.update (s : Stats) (c : Color) (f : ColorStat → ColorStat) : Stats :=
  match c with
  | .red => { s with red := f s.red }
  | .blue => { s with blue := f s.blue }
  | .green => { s with green := f s.green }
  | .yellow => { s with yellow := f s.yellow }

/-- The freshly reset stats table built by resetStats / resetL2Simulation. -/
def defaultStats : Stats :=
  ⟨statsTemplate, statsTemplate, statsTemplate, statsTemplate⟩

/-- BALLOON_CONFIG[c].range, the static inclusive pop-threshold bounds. -/
def configRange : Color → Nat × Nat
  | .red => (6, 12)
  | .blue => (4, 6)
  | .green => (2, 8)
  | .yellow => (1, 20)

/-- A configured strategy: the pump threshold per color
(gameState.l2.strategy / gameState.l3.strategy after updateL2Strategy /
updateL3Strategy has filled all four entries). -/
def Strategy := Color → Nat

/-- Sum of the four per-color scores:
Object.values(stats).reduce((sum, s) => sum + s.score, 0). -/
def sumScores (s : Stats) : Nat :=
  s.red.score + s.blue.score + s.green.score + s.yellow.score

/-! ## Level 2 batch simulator (sub-state touched by the resolver loop) -/

/-- The part of gameState.l2 mutated by the per-balloon resolver:
stats, processedCount and totalEarned.  In the source totalEarned is
read as (gameState.l2.totalEarned || 0); starting it at 0 makes the
defaulting a no-op, which is faithful on Nat. -/
structure L2State where
  stats : Stats
  processedCount : Nat
  totalEarned : Nat
deriving DecidableEq, Repr

/-- State produced by resetL2Simulation: processedCount = 0,
totalEarned = 0, stats re-built from statsTemplate. -/
def resetL2State : L2State :=
  { stats := defaultStats, processedCount := 0, totalEarned := 0 }

/-- One random draw of the level-2 loop: the color returned by
getL2RandomBalloon together with the maxPumps value returned by
getRandomInt(...config.range). -/
abbrev Draw := Color × Nat

/-- The state mutation of one tick of runL2Simulation (script.js
lines 1052-1075): draw type and maxPumps, compare against the
configured strategyPumps, update stats/processedCount/totalEarned. -/
def runL2SimulationStep (strategy : Strategy) (s : L2State)
    (type : Color) (maxPumps : Nat) : L2State :=
  let strategyPumps := strategy type
  let scoreVal : Nat := if strategyPumps > maxPumps then 0 else strategyPumps
  let stats :=
    if strategyPumps > maxPumps then
      s.stats.update type (fun st => { st with pops := st.pops + 1 })
    else
      s.stats.update type (fun st => { st with score := st.score + scoreVal })
  let stats := stats.update type (fun st => { st with count := st.count + 1 })
  { stats := stats,
    processedCount := s.processedCount + 1,
    totalEarned := s.totalEarned + scoreVal }

/-- The body of the skip loop of skipL2ToEnd (script.js lines 969-990):
identical arithmetic, translated separately from its own source lines. -/
def skipL2Step (strategy : Strategy) (s : L2State)
    (color : Color) (maxPumps : Nat) : L2State :=
  let strategyPumps := strategy color
  let scoreVal : Nat := if strategyPumps > maxPumps then 0 else strategyPumps
  let stats :=
    if strategyPumps > maxPumps then
      s.stats.update color (fun st => { st with pops := st.pops + 1 })
    else
      s.stats.update color (fun st => { st with score := st.score + scoreVal })
  let stats := stats.update color (fun st => { st with count := st.count + 1 })
  { stats := stats,
    processedCount := s.processedCount + 1,
    totalEarned := s.totalEarned + scoreVal }

/-- The ticked run: each interval callback first checks
processedCount >= 100 (and then stops), otherwise resolves one balloon.
The list supplies the successive random draws; an exhausted list models
a run that is still in progress. -/
def runL2Ticks (strategy : Strategy) : List Draw → L2State → L2State
  | [], s => s
  | d :: ds, s =>
    if 100 ≤ s.processedCount then s
    else runL2Ticks strategy ds (runL2SimulationStep strategy s d.1 d.2)

/-- The skip loop of skipL2ToEnd: for (let i = 0; i < remaining; i++),
resolving one balloon per iteration.  The Nat argument is the remaining
iteration count, the list supplies the draws. -/
def skipL2Loop (strategy : Strategy) : Nat → List Draw → L2State → L2State
  | 0, _, s => s
  | _ + 1, [], s => s
  | n + 1, d :: ds, s => skipL2Loop strategy n ds (skipL2Step strategy s d.1 d.2)

/-- The resolution part of skipL2ToEnd (script.js lines 968-990):
remaining = 100 - processedCount balloons are resolved in a tight loop.
On Nat, 100 - processedCount is 0 when processedCount exceeds 100, just
as the JS for-loop does nothing when remaining is negative. -/
def skipL2Resolve (strategy : Strategy) (draws : List Draw) (s : L2State) : L2State :=
  skipL2Loop strategy (100 - s.processedCount) draws s

/-! ## Level 2 control layer: toggle, strategy records, completion -/

/-- A fully-configured strategy table as stored in gameState.l2.strategy
once updateL2Strategy has read the four sliders. -/
structure Strat4 where
  red : Nat
  blue : Nat
  green : Nat
  yellow : Nat
deriving DecidableEq, Repr

/-- strategy[color] lookup. -/
def Strat4.get (t : Strat4) : Color → Nat
  | .red => t.red
  | .blue => t.blue
  | .green => t.green
  | .yellow => t.yellow

/-- Per-color summary stored by saveL2Strategy: avgScore, popRate and
count.  The JS float divisions are modelled exactly over Rat. -/
structure PerfEntry where
  avgScore : ℚ
  popRate : ℚ
  count : Nat
deriving DecidableEq, Repr

/-- The immutable strategyRecord snapshot built by saveL2Strategy.
Date.now() is an external input and is passed in as the timestamp. -/
structure StrategyRecord where
  timestamp : Nat
  strategy : Strat4
  perfRed : PerfEntry
  perfBlue : PerfEntry
  perfGreen : PerfEntry
  perfYellow : PerfEntry
  overallPopRate : ℚ
  overallAvgScore : ℚ
  totalProcessed : Nat
deriving DecidableEq, Repr

/-- The level-2 game-state slice relevant to the control flow of
toggleL2Simulation / skipL2ToEnd / endLevel2: the running flag, the
resolver sub-state, the configured strategy, the bounded strategy
history and the global unlockedLevels counter. -/
structure L2Full where
  isRunning : Bool
  sim : L2State
  strategy : Strat4
  pastStrategies : List StrategyRecord
  unlockedLevels : Nat
deriving DecidableEq, Repr

/-- resetL2Simulation (script.js lines 779-805): zero processedCount and
totalEarned and rebuild the stats table; nothing else is touched. -/
def resetL2Simulation (g : L2Full) : L2Full :=
  { g with sim := { stats := defaultStats, processedCount := 0, totalEarned := 0 } }

/-- The per-color performance summary computed inside saveL2Strategy. -/
def l2PerfEntry (s : Stats) (c : Color) : PerfEntry :=
  let stats := s.get c
  { avgScore := if stats.count > 0 then (stats.score : ℚ) / stats.count else 0,
    popRate := if stats.count > 0 then ((stats.pops : ℚ) / stats.count) * 100 else 0,
    count := stats.count }

/-- saveL2Strategy (script.js lines 807-857): build a strategyRecord
from the current stats and strategy, push it to the front of
pastStrategies and truncate the history to its three newest entries. -/
def saveL2Strategy (now : Nat) (g : L2Full) : L2Full :=
  let s := g.sim.stats
  let totalScore := s.red.score + s.blue.score + s.green.score + s.yellow.score
  let totalPops := s.red.pops + s.blue.pops + s.green.pops + s.yellow.pops
  let totalCount := s.red.count + s.blue.count + s.green.count + s.yellow.count
  let overallPopRate : ℚ :=
    if totalCount > 0 then ((totalPops : ℚ) / totalCount) * 100 else 0
  let overallAvgScore : ℚ :=
    if totalCount > 0 then (totalScore : ℚ) / totalCount else 0
  let strategyRecord : StrategyRecord :=
    { timestamp := now
      strategy := g.strategy
      perfRed := l2PerfEntry s .red
      perfBlue := l2PerfEntry s .blue
      perfGreen := l2PerfEntry s .green
      perfYellow := l2PerfEntry s .yellow
      overallPopRate := overallPopRate
      overallAvgScore := overallAvgScore
      totalProcessed := g.sim.processedCount }
  let past := strategyRecord :: g.pastStrategies
  { g with pastStrategies := if past.length > 3 then past.take 3 else past }

/-- updateL2Strategy: copy the four slider values into the strategy. -/
def updateL2Strategy (sliders : Strat4) (g : L2Full) : L2Full :=
  { g with strategy := sliders }

/-- toggleL2Simulation (script.js lines 1005-1029).  Starting a run
reads the sliders, resets the simulation sub-state and starts the
ticker; pausing records a strategy snapshot and clears the timer.  The
DOM/button updates carry no state. -/
def toggleL2Simulation (sliders : Strat4) (now : Nat) (g : L2Full) : L2Full :=
  let g := { g with isRunning := !g.isRunning }
  if g.isRunning then
    resetL2Simulation (updateL2Strategy sliders g)
  else
    saveL2Strategy now g

/-- endLevel2 (script.js lines 1106-1123): only a non-review completion
stops the run and raises unlockedLevels to at least 3. -/
def endLevel2 (isReview : Bool) (g : L2Full) : L2Full :=
  if !isReview then
    { g with isRunning := false, unlockedLevels := max g.unlockedLevels 3 }
  else g

/-- skipL2ToEnd (script.js lines 961-1003): guard on isRunning, resolve
the remaining 100 - processedCount balloons synchronously, record the
strategy, then call endLevel2(true). -/
def skipL2ToEnd (draws : List Draw) (now : Nat) (g : L2Full) : L2Full :=
  if !g.isRunning then g
  else
    let g := { g with sim := skipL2Loop g.strategy.get (100 - g.sim.processedCount) draws g.sim }
    let g := saveL2Strategy now g
    endLevel2 true g

/-- The ticked run at the control layer: each tick checks
processedCount >= 100 and then calls endLevel2() (non-review),
otherwise resolves one balloon via the runL2Simulation body. -/
def runL2TicksFull : List Draw → L2Full → L2Full
  | [], g => if 100 ≤ g.sim.processedCount then endLevel2 false g else g
  | d :: ds, g =>
    if 100 ≤ g.sim.processedCount then endLevel2 false g
    else runL2TicksFull ds { g with sim := runL2SimulationStep g.strategy.get g.sim d.1 d.2 }

/-! ## Level 1 sequencer -/

/-- The fixed 15-balloon training sequence L1_SEQUENCE. -/
def L1_SEQUENCE : List Color :=
  [.red, .red, .red, .red, .blue, .blue, .blue, .blue,
   .green, .red, .blue, .green, .red, .blue, .green]

/-- One entry of the level-1 history window: { type, pumps, popped }. -/
structure HEntry where
  type : Color
  pumps : Nat
  popped : Bool
deriving DecidableEq, Repr

/-- The part of gameState.l1 driven by the pump/bank/pop handlers.
Future getRandomInt draws for setupNextL1Balloon are carried as an
explicit oracle list. -/
structure L1Sim where
  stats : Stats
  balloonIndex : Nat
  history : List HEntry
  isPopping : Bool
  currentBalloon : Color × Nat
  currentPumps : Nat
  draws : List Nat
deriving DecidableEq, Repr

/-- addToL1History (script.js lines 617-622): unshift the new entry and
drop the oldest once the window exceeds 8. -/
def addToL1History (s : L1Sim) (type : Color) (pumps : Nat) (popped : Bool) : L1Sim :=
  let h := (⟨type, pumps, popped⟩ : HEntry) :: s.history
  { s with history := if h.length > 8 then h.dropLast else h }

/-- setupNextL1Balloon (script.js lines 513-528): clear isPopping, stop
at the end of the sequence, otherwise consume one random draw as the new
balloon's maxPumps and zero currentPumps. -/
def setupNextL1Balloon (s : L1Sim) : L1Sim :=
  let s := { s with isPopping := false }
  if L1_SEQUENCE.length ≤ s.balloonIndex then s
  else
    { s with
      currentBalloon := (L1_SEQUENCE.getD s.balloonIndex .red, s.draws.headD 0),
      currentPumps := 0,
      draws := s.draws.tail }

/-- handleL1Pop (script.js lines 606-615) followed by the deferred
setupNextL1Balloon: mark popping, increment count (pops is not
touched there), record the popped balloon, advance the index. -/
def handleL1Pop (s : L1Sim) : L1Sim :=
  let s := { s with isPopping := true }
  let type := s.currentBalloon.1
  let maxPumps := s.currentBalloon.2
  let stats := s.stats.update type (fun st => { st with count := st.count + 1 })
  let s := addToL1History { s with stats := stats } type maxPumps true
  setupNextL1Balloon { s with balloonIndex := s.balloonIndex + 1 }

/-- handleL1Bank (script.js lines 588-604) followed by
setupNextL1Balloon: bank the current pumps into score and pumps,
increment count, record the cash-out, advance the index. -/
def handleL1Bank (s : L1Sim) : L1Sim :=
  if s.isPopping then s
  else
    let type := s.currentBalloon.1
    let pumps := s.currentPumps
    let stats := s.stats.update type
      (fun st => { st with score := st.score + pumps, pumps := st.pumps + pumps })
    let stats := stats.update type (fun st => { st with count := st.count + 1 })
    let s := addToL1History { s with stats := stats } type pumps false
    setupNextL1Balloon { s with balloonIndex := s.balloonIndex + 1 }

/-- handleL1Pump (script.js lines 566-586): one pump; the balloon pops
automatically once currentPumps exceeds the hidden maxPumps. -/
def handleL1Pump (s : L1Sim) : L1Sim :=
  if s.isPopping then s
  else
    let s := { s with currentPumps := s.currentPumps + 1 }
    if s.currentPumps > s.currentBalloon.2 then handleL1Pop s else s

/-- The two player actions of level 1. -/
inductive L1Act
  | pump | bank
deriving DecidableEq, Repr

/-- Dispatch one button press. -/
def l1Step (s : L1Sim) : L1Act → L1Sim
  | .pump => handleL1Pump s
  | .bank => handleL1Bank s

/-- A whole interaction sequence. -/
def l1Run (s : L1Sim) (acts : List L1Act) : L1Sim :=
  acts.foldl l1Step s

/-- The level-1 state at the start of a fresh run: zeroed stats and the
first balloon set up from the supplied draw oracle. -/
def l1InitState (draws : List Nat) : L1Sim :=
  setupNextL1Balloon
    { stats := defaultStats, balloonIndex := 0, history := [],
      isPopping := false, currentBalloon := (.red, 0), currentPumps := 0,
      draws := draws }

/-- Observer counting the cash-outs for one color along an action
sequence: a cash-out is a bank press accepted by its guard. -/
def l1CashOuts : L1Sim → List L1Act → Color → Nat
  | _, [], _ => 0
  | s, a :: as, c =>
    (match a with
     | .bank => if s.isPopping = false ∧ s.currentBalloon.1 = c then 1 else 0
     | .pump => 0) + l1CashOuts (l1Step s a) as c

/-- Observer counting the automatic pops for one color along an action
sequence: a pump press that pushes currentPumps beyond maxPumps. -/
def l1PopEvents : L1Sim → List L1Act → Color → Nat
  | _, [], _ => 0
  | s, a :: as, c =>
    (match a with
     | .pump =>
        if s.isPopping = false ∧ s.currentPumps + 1 > s.currentBalloon.2 ∧
            s.currentBalloon.1 = c then 1 else 0
     | .bank => 0) + l1PopEvents (l1Step s a) as c

/-- The level-1 state slice read and written by endLevel1. -/
structure L1End where
  stats : Stats
  bestScore : Nat
  unlockedLevels : Nat
deriving DecidableEq, Repr

/-- endLevel1 (script.js lines 624-659), state part plus the isNewBest
flag used by the summary screen.  On Nat the defaulting in
(gameState.l1.bestScore || 0) is the identity. -/
def endLevel1 (isReview : Bool) (s : L1End) : L1End × Bool :=
  let s :=
    if !isReview then
      let s := { s with unlockedLevels := max s.unlockedLevels 2 }
      let totalScore := sumScores s.stats
      if totalScore > s.bestScore then { s with bestScore := totalScore } else s
    else s
  let totalScore := sumScores s.stats
  let isNewBest := decide (totalScore = s.bestScore) && !isReview
  (s, isNewBest)

/-! ## Level 3 continuous simulator -/

/-- Math.round, i.e. floor(x + 1/2), on exact rationals. -/
def jsRound (q : ℚ) : ℤ := ⌊q + 1 / 2⌋

/-- One temperature-drift step of runL3TempChanges (script.js lines
1337-1344): add the random change, then clamp to 40 from above and to 0
from below, in that order. -/
def updateTempStep (temperature change : ℤ) : ℤ :=
  let t := temperature + change
  let t := if t > 40 then 40 else t
  if t < 0 then 0 else t

/-- The temperature-skewed effective range computed by runL3Simulation
(script.js lines 1376-1380) before the maxPumps draw. -/
def l3SkewedRange (type : Color) (temperature : ℤ) : ℤ × ℤ :=
  let tempDiff := temperature - 20
  let percentChange := jsRound ((tempDiff : ℚ) / 2)
  let mn : ℤ := (configRange type).1
  let mx : ℤ := (configRange type).2
  let mn := max 1 (jsRound ((mn : ℚ) * (1 - (percentChange : ℚ) / 100)))
  let mx := max (mn + 1) (jsRound ((mx : ℚ) * (1 - (percentChange : ℚ) / 100)))
  (mn, mx)

/-- The part of gameState.l3 mutated by the production loop.
processedCount is read as (processedCount || 0) in the source; starting
at 0 makes the defaulting a no-op on Nat. -/
structure L3State where
  stats : Stats
  totalScore : Nat
  processedCount : Nat
  temperature : ℤ
deriving DecidableEq, Repr

/-- The state mutation of one tick of runL3Simulation (script.js lines
1373-1385): the maxPumps argument is the getRandomInt draw from the
temperature-skewed range. -/
def runL3SimulationStep (strategy : Strategy) (s : L3State)
    (type : Color) (maxPumps : Nat) : L3State :=
  let strategyPumps := strategy type
  let scoreVal : Nat := if strategyPumps > maxPumps then 0 else strategyPumps
  let stats :=
    if strategyPumps > maxPumps then
      s.stats.update type (fun st => { st with pops := st.pops + 1 })
    else
      s.stats.update type (fun st => { st with score := st.score + scoreVal })
  let totalScore :=
    if strategyPumps > maxPumps then s.totalScore else s.totalScore + scoreVal
  let stats := stats.update type (fun st => { st with count := st.count + 1 })
  { stats := stats, totalScore := totalScore,
    processedCount := s.processedCount + 1, temperature := s.temperature }

/-- The level-3 production state at the start of a run (defaults of
getDefaultGameState / resetStats for l3). -/
def l3InitState : L3State :=
  { stats := defaultStats, totalScore := 0, processedCount := 0, temperature := 20 }

/-- A run of the production loop over a list of draws. -/
def l3Run (strategy : Strategy) (draws : List Draw) (s : L3State) : L3State :=
  draws.foldl (fun s d => runL3SimulationStep strategy s d.1 d.2) s

/-! ## Persisted state and the load path -/

/-- The tutorial progress record { l1, l2 }. -/
structure Tutorial where
  l1 : Nat
  l2 : Nat
deriving DecidableEq, Repr

/-- A possibly-incomplete strategy object as it may sit in storage;
resetStats writes the empty object. -/
structure StratMap where
  red : Option Nat
  blue : Option Nat
  green : Option Nat
  yellow : Option Nat
deriving DecidableEq, Repr

/-- The empty object assigned by resetStats: strategy = {}. -/
def StratMap.emptyMap : StratMap := ⟨none, none, none, none⟩

/-- A possibly-incomplete stats table from storage; initGame only probes
the red entry before deciding to rebuild the whole table. -/
structure PStats where
  red : Option ColorStat
  blue : Option ColorStat
  green : Option ColorStat
  yellow : Option ColorStat
deriving DecidableEq, Repr

/-- The empty stats object of getDefaultGameState: stats = {}. -/
def PStats.emptyStats : PStats := ⟨none, none, none, none⟩

/-- The fully-populated stats table written by resetStats. -/
def PStats.fullDefault : PStats :=
  ⟨some statsTemplate, some statsTemplate, some statsTemplate, some statsTemplate⟩

/-- The stored shape of gameState.l1; every field a JSON document may
or may not carry is an Option. -/
structure PL1 where
  stats : Option PStats
  balloonIndex : Option Nat
  history : Option (List HEntry)
  isPopping : Option Bool
  strategy : Option StratMap
  bestScore : Option Nat
deriving DecidableEq, Repr

/-- The stored shape of gameState.l2. -/
structure PL2 where
  stats : Option PStats
  processedCount : Option Nat
  strategy : Option StratMap
  pastStrategies : Option (List StrategyRecord)
  totalEarned : Option Nat
  isRunning : Option Bool
deriving DecidableEq, Repr

/-- The stored shape of gameState.l3. -/
structure PL3 where
  stats : Option PStats
  totalScore : Option Nat
  processedSinceChartUpdate : Option Nat
  temperature : Option ℤ
  strategy : Option StratMap
  isRunning : Option Bool
deriving DecidableEq, Repr

/-- The stored shape of the whole gameState JSON document. -/
structure PGameState where
  unlockedLevels : Option Nat
  tutorial : Option Tutorial
  l1 : Option PL1
  l2 : Option PL2
  l3 : Option PL3
deriving DecidableEq, Repr

/-- getDefaultGameState (script.js lines 115-149). -/
def getDefaultGameState : PGameState :=
  { unlockedLevels := some 1
    tutorial := some ⟨0, 0⟩
    l1 := some
      { stats := some PStats.emptyStats, balloonIndex := some 0,
        history := some [], isPopping := some false,
        strategy := some StratMap.emptyMap, bestScore := some 0 }
    l2 := some
      { stats := some PStats.emptyStats, processedCount := some 0,
        strategy := some StratMap.emptyMap, pastStrategies := some [],
        totalEarned := none, isRunning := none }
    l3 := some
      { stats := some PStats.emptyStats, totalScore := some 0,
        processedSinceChartUpdate := some 0, temperature := some 20,
        strategy := some StratMap.emptyMap, isRunning := none } }

/-- What localStorage.getItem can hand to loadGameState: no stored
item, a string JSON.parse rejects, or a parsed object document. -/
inductive StoredDoc
  | absent
  | malformed
  | doc (d : PGameState)
deriving DecidableEq, Repr

/-- The two exceptions the load path can raise: the SyntaxError of
JSON.parse on a malformed string, and the TypeError of reading or
writing a property of undefined. -/
inductive JsError
  | parseError
  | typeError
deriving DecidableEq, Repr

/-- loadGameState (script.js lines 164-174).  JSON.parse of a malformed
string throws; reading gameState.l1.bestScore (resp.
gameState.l2.pastStrategies) throws when l1 (resp. l2) is missing.  The
truthiness test !gameState.l1.bestScore also fires on a stored 0. -/
def loadGameState : StoredDoc → Except JsError PGameState
  | .absent => .ok getDefaultGameState
  | .malformed => .error .parseError
  | .doc d =>
    let d := if d.tutorial = none then { d with tutorial := some ⟨0, 0⟩ } else d
    match d.l1 with
    | none => .error .typeError
    | some r1 =>
      let d :=
        if r1.bestScore = none ∨ r1.bestScore = some 0 then
          { d with l1 := some { r1 with bestScore := some 0 } }
        else d
      match d.l2 with
      | none => .error .typeError
      | some r2 =>
        let d :=
          if r2.pastStrategies = none then
            { d with l2 := some { r2 with pastStrategies := some [] } }
          else d
        .ok d

/-- The stats probe of initGame: !gameState[level].stats ||
!gameState[level].stats.red. -/
def statsNeedReset : Option PStats → Bool
  | none => true
  | some ps => ps.red = none

/-- resetStats for level l1 (script.js lines 187-200). -/
def resetStatsL1 (r : PL1) : PL1 :=
  { r with stats := some PStats.fullDefault, strategy := some StratMap.emptyMap,
           history := some [], balloonIndex := some 0, isPopping := some false }

/-- resetStats for level l2 (script.js lines 187-203). -/
def resetStatsL2 (r : PL2) : PL2 :=
  { r with stats := some PStats.fullDefault, strategy := some StratMap.emptyMap,
           processedCount := some 0 }

/-- resetStats for level l3 (script.js lines 187-208). -/
def resetStatsL3 (r : PL3) : PL3 :=
  { r with stats := some PStats.fullDefault, strategy := some StratMap.emptyMap,
           totalScore := some 0, processedSinceChartUpdate := some 0,
           temperature := some 20 }

/-- initGame (script.js lines 176-185): load, then for each level reset
its stats when the level record or its red stats entry is missing.
When the level record itself is missing, resetStats assigns a property
of undefined, which throws a TypeError.  Finally both running flags are
forced to false (guarded by the record's presence). -/
def initGame (st : StoredDoc) : Except JsError PGameState :=
  match loadGameState st with
  | .error e => .error e
  | .ok g =>
    match g.l1 with
    | none => .error .typeError
    | some r1 =>
      let g := if statsNeedReset r1.stats then { g with l1 := some (resetStatsL1 r1) } else g
      match g.l2 with
      | none => .error .typeError
      | some r2 =>
        let g := if statsNeedReset r2.stats then { g with l2 := some (resetStatsL2 r2) } else g
        match g.l3 with
        | none => .error .typeError
        | some r3 =>
          let g := if statsNeedReset r3.stats then { g with l3 := some (resetStatsL3 r3) } else g
          let g :=
            match g.l2 with
            | none => g
            | some r2 => { g with l2 := some { r2 with isRunning := some false } }
          let g :=
            match g.l3 with
            | none => g
            | some r3 => { g with l3 := some { r3 with isRunning := some false } }
          .ok g

/-! ## Supporting lemmas: level 2 resolver loops -/

/-- A plain sequence of level-2 resolutions, one per draw, without the
scheduling wrapper: this is what both the ticked loop and the skip loop
execute per balloon. -/
def l2Run (strategy : Strategy) (draws : List Draw) (s : L2State) : L2State :=
  draws.foldl (fun s d => runL2SimulationStep strategy s d.1 d.2) s

/-- Number of draws of a given color in a draw list. -/
def drawColorCount : List Draw → Color → Nat
  | [], _ => 0
  | d :: ds, c => (if d.1 = c then 1 else 0) + drawColorCount ds c

/-- Number of cash-outs for a given color: draws of that color whose
maxPumps is not exceeded by the configured strategy. -/
def drawCashOuts (strategy : Strategy) : List Draw → Color → Nat
  | [], _ => 0
  | d :: ds, c =>
    (if d.1 = c ∧ ¬ strategy d.1 > d.2 then 1 else 0) + drawCashOuts strategy ds c

/-- Number of pops for a given color: draws of that color whose
maxPumps the configured strategy exceeds. -/
def drawPops (strategy : Strategy) : List Draw → Color → Nat
  | [], _ => 0
  | d :: ds, c =>
    (if d.1 = c ∧ strategy d.1 > d.2 then 1 else 0) + drawPops strategy ds c

/-- A level-2 state as toggleL2Simulation leaves it right after starting
a run with all sliders at 5, on a save file where level 2 was already
unlocked (unlockedLevels = 2). -/
def l2StartedState : L2Full :=
  { isRunning := true, sim := resetL2State, strategy := ⟨5, 5, 5, 5⟩,
    pastStrategies := [], unlockedLevels := 2 }

/-- One hundred draws of a red balloon whose hidden threshold is 20. -/
def hundredRedDraws : List Draw := List.replicate 100 (Color.red, 20)

/-! ## Lemmas and claim theorems -/

lemma Stats.get_update (s : Stats) (c d : Color) (f : ColorStat → ColorStat) :
    (s.update c f).get d = if c = d then f (s.get d) else s.get d := by
  cases c <;> cases d <;> simp [Stats.update, Stats.get]

lemma sumScores_update_score (s : Stats) (c : Color) (v : Nat) :
    sumScores (s.update c (fun st => { st with score := st.score + v })) =
      sumScores s + v := by
  cases c <;> simp [Stats.update, sumScores] <;> omega

lemma sumScores_update_pops (s : Stats) (c : Color) :
    sumScores (s.update c (fun st => { st with pops := st.pops + 1 })) =
      sumScores s := by
  cases c <;> simp [Stats.update, sumScores]

lemma sumScores_update_count (s : Stats) (c : Color) :
    sumScores (s.update c (fun st => { st with count := st.count + 1 })) =
      sumScores s := by
  cases c <;> simp [Stats.update, sumScores]

lemma drawColorCount_eq_cash_add_pops (strategy : Strategy) (draws : List Draw) (c : Color) :
    drawColorCount draws c = drawCashOuts strategy draws c + drawPops strategy draws c := by
  induction draws with
  | nil => rfl
  | cons d ds ih =>
      simp only [drawColorCount, drawCashOuts, drawPops, ih]
      by_cases h1 : d.1 = c
      · subst h1
        by_cases h2 : strategy d.1 > d.2 <;> simp [h2] <;> omega
      · simp [h1]

/-- The skip-loop body and the ticked body are the same state function. -/
lemma skipL2Step_eq (strategy : Strategy) (s : L2State) (c : Color) (m : Nat) :
    skipL2Step strategy s c m = runL2SimulationStep strategy s c m := rfl

lemma runL2SimulationStep_processedCount (strategy : Strategy) (s : L2State)
    (c : Color) (m : Nat) :
    (runL2SimulationStep strategy s c m).processedCount = s.processedCount + 1 := by
  simp [runL2SimulationStep]

lemma runL2SimulationStep_earned (strategy : Strategy) (s : L2State) (c : Color) (m : Nat) :
    (runL2SimulationStep strategy s c m).totalEarned =
      s.totalEarned + (if strategy c > m then 0 else strategy c) := rfl

lemma runL2SimulationStep_sumScores (strategy : Strategy) (s : L2State) (c : Color) (m : Nat) :
    sumScores (runL2SimulationStep strategy s c m).stats =
      sumScores s.stats + (if strategy c > m then 0 else strategy c) := by
  by_cases h : strategy c > m <;>
    simp [runL2SimulationStep, h, sumScores_update_count, sumScores_update_score,
      sumScores_update_pops]

/-- The earned-equals-total-score invariant is preserved by one resolution. -/
lemma runL2SimulationStep_inv (strategy : Strategy) (s : L2State) (c : Color) (m : Nat)
    (h : s.totalEarned = sumScores s.stats) :
    (runL2SimulationStep strategy s c m).totalEarned =
      sumScores (runL2SimulationStep strategy s c m).stats := by
  rw [runL2SimulationStep_earned, runL2SimulationStep_sumScores, h]

lemma runL2Ticks_processedCount (strategy : Strategy) (draws : List Draw) (s : L2State)
    (h : s.processedCount ≤ 100) :
    (runL2Ticks strategy draws s).processedCount =
      min 100 (s.processedCount + draws.length) := by
  induction draws generalizing s with
  | nil => simp [runL2Ticks]; omega
  | cons d ds ih =>
      rw [runL2Ticks]
      by_cases h100 : 100 ≤ s.processedCount
      · have : s.processedCount = 100 := le_antisymm h h100
        simp [h100, this]
      · have hlt : s.processedCount < 100 := lt_of_not_le h100
        rw [if_neg h100, ih _ (by rw [runL2SimulationStep_processedCount]; omega)]
        rw [runL2SimulationStep_processedCount]
        simp [List.length_cons]
        omega

lemma runL2Ticks_inv (strategy : Strategy) (draws : List Draw) (s : L2State)
    (h : s.totalEarned = sumScores s.stats) :
    (runL2Ticks strategy draws s).totalEarned =
      sumScores (runL2Ticks strategy draws s).stats := by
  induction draws generalizing s with
  | nil => simpa [runL2Ticks] using h
  | cons d ds ih =>
      rw [runL2Ticks]
      by_cases h100 : 100 ≤ s.processedCount
      · simpa [h100] using h
      · rw [if_neg h100]
        exact ih _ (runL2SimulationStep_inv strategy s d.1 d.2 h)

lemma skipL2Loop_processedCount (strategy : Strategy) (n : Nat) (draws : List Draw)
    (s : L2State) (h : n ≤ draws.length) :
    (skipL2Loop strategy n draws s).processedCount = s.processedCount + n := by
  induction n generalizing draws s with
  | zero => simp [skipL2Loop]
  | succ n ih =>
      match draws with
      | [] => simp at h
      | d :: ds =>
          rw [skipL2Loop, skipL2Step_eq]
          rw [ih ds _ (by simpa using h), runL2SimulationStep_processedCount]
          omega

lemma skipL2Loop_inv (strategy : Strategy) (n : Nat) (draws : List Draw) (s : L2State)
    (h : s.totalEarned = sumScores s.stats) :
    (skipL2Loop strategy n draws s).totalEarned =
      sumScores (skipL2Loop strategy n draws s).stats := by
  induction n generalizing draws s with
  | zero => simpa [skipL2Loop] using h
  | succ n ih =>
      match draws with
      | [] => simpa [skipL2Loop] using h
      | d :: ds =>
          rw [skipL2Loop, skipL2Step_eq]
          exact ih ds _ (runL2SimulationStep_inv strategy s d.1 d.2 h)

/-- With the same draw stream, the ticked run to completion and the skip
loop over the remaining balloons compute the same state. -/
lemma runL2Ticks_eq_skipL2Loop (strategy : Strategy) (n : Nat) (draws : List Draw)
    (s : L2State) (hn : s.processedCount + n = 100) (h : n ≤ draws.length) :
    runL2Ticks strategy draws s = skipL2Loop strategy n draws s := by
  induction n generalizing draws s with
  | zero =>
      cases draws with
      | nil => simp [runL2Ticks, skipL2Loop]
      | cons d ds => rw [runL2Ticks, skipL2Loop, if_pos (by omega)]
  | succ n ih =>
      match draws with
      | [] => simp at h
      | d :: ds =>
          rw [runL2Ticks, skipL2Loop, if_neg (by omega), skipL2Step_eq]
          exact ih ds _ (by rw [runL2SimulationStep_processedCount]; omega) (by simpa using h)

lemma runL2SimulationStep_count (strategy : Strategy) (s : L2State) (c : Color) (m : Nat)
    (x : Color) :
    ((runL2SimulationStep strategy s c m).stats.get x).count =
      (s.stats.get x).count + (if c = x then 1 else 0) := by
  rcases eq_or_ne c x with hx | hx
  · subst hx
    by_cases hp : strategy c > m <;> simp [runL2SimulationStep, Stats.get_update, hp]
  · by_cases hp : strategy c > m <;> simp [runL2SimulationStep, Stats.get_update, hp, hx]

lemma runL2SimulationStep_pops (strategy : Strategy) (s : L2State) (c : Color) (m : Nat)
    (x : Color) :
    ((runL2SimulationStep strategy s c m).stats.get x).pops =
      (s.stats.get x).pops + (if c = x ∧ strategy c > m then 1 else 0) := by
  rcases eq_or_ne c x with hx | hx
  · subst hx
    by_cases hp : strategy c > m <;> simp [runL2SimulationStep, Stats.get_update, hp]
  · by_cases hp : strategy c > m <;> simp [runL2SimulationStep, Stats.get_update, hp, hx]

lemma l2Run_count (strategy : Strategy) (draws : List Draw) (s : L2State) (c : Color) :
    ((l2Run strategy draws s).stats.get c).count =
      (s.stats.get c).count + drawColorCount draws c := by
  induction draws generalizing s with
  | nil => simp [l2Run, drawColorCount]
  | cons d ds ih =>
      show ((l2Run strategy ds (runL2SimulationStep strategy s d.1 d.2)).stats.get c).count = _
      rw [ih, runL2SimulationStep_count]
      simp only [drawColorCount]
      omega

lemma l2Run_pops (strategy : Strategy) (draws : List Draw) (s : L2State) (c : Color) :
    ((l2Run strategy draws s).stats.get c).pops =
      (s.stats.get c).pops + drawPops strategy draws c := by
  induction draws generalizing s with
  | nil => simp [l2Run, drawPops]
  | cons d ds ih =>
      show ((l2Run strategy ds (runL2SimulationStep strategy s d.1 d.2)).stats.get c).pops = _
      rw [ih, runL2SimulationStep_pops]
      simp only [drawPops]
      omega

lemma runL3SimulationStep_count (strategy : Strategy) (s : L3State) (c : Color) (m : Nat)
    (x : Color) :
    ((runL3SimulationStep strategy s c m).stats.get x).count =
      (s.stats.get x).count + (if c = x then 1 else 0) := by
  rcases eq_or_ne c x with hx | hx
  · subst hx
    by_cases hp : strategy c > m <;> simp [runL3SimulationStep, Stats.get_update, hp]
  · by_cases hp : strategy c > m <;> simp [runL3SimulationStep, Stats.get_update, hp, hx]

lemma runL3SimulationStep_pops (strategy : Strategy) (s : L3State) (c : Color) (m : Nat)
    (x : Color) :
    ((runL3SimulationStep strategy s c m).stats.get x).pops =
      (s.stats.get x).pops + (if c = x ∧ strategy c > m then 1 else 0) := by
  rcases eq_or_ne c x with hx | hx
  · subst hx
    by_cases hp : strategy c > m <;> simp [runL3SimulationStep, Stats.get_update, hp]
  · by_cases hp : strategy c > m <;> simp [runL3SimulationStep, Stats.get_update, hp, hx]

lemma l3Run_count (strategy : Strategy) (draws : List Draw) (s : L3State) (c : Color) :
    ((l3Run strategy draws s).stats.get c).count =
      (s.stats.get c).count + drawColorCount draws c := by
  induction draws generalizing s with
  | nil => simp [l3Run, drawColorCount]
  | cons d ds ih =>
      show ((l3Run strategy ds (runL3SimulationStep strategy s d.1 d.2)).stats.get c).count = _
      rw [ih, runL3SimulationStep_count]
      simp only [drawColorCount]
      omega

lemma l3Run_pops (strategy : Strategy) (draws : List Draw) (s : L3State) (c : Color) :
    ((l3Run strategy draws s).stats.get c).pops =
      (s.stats.get c).pops + drawPops strategy draws c := by
  induction draws generalizing s with
  | nil => simp [l3Run, drawPops]
  | cons d ds ih =>
      show ((l3Run strategy ds (runL3SimulationStep strategy s d.1 d.2)).stats.get c).pops = _
      rw [ih, runL3SimulationStep_pops]
      simp only [drawPops]
      omega

/-! ## Supporting lemmas: level 1 -/

lemma addToL1History_stats (s : L1Sim) (t : Color) (p : Nat) (b : Bool) :
    (addToL1History s t p b).stats = s.stats := rfl

lemma setupNextL1Balloon_stats (s : L1Sim) : (setupNextL1Balloon s).stats = s.stats := by
  rw [setupNextL1Balloon]
  split <;> rfl

lemma setupNextL1Balloon_isPopping (s : L1Sim) :
    (setupNextL1Balloon s).isPopping = false := by
  rw [setupNextL1Balloon]
  split <;> rfl

lemma handleL1Pop_stats (s : L1Sim) :
    (handleL1Pop s).stats =
      s.stats.update s.currentBalloon.1 (fun st => { st with count := st.count + 1 }) := by
  rw [handleL1Pop]
  rw [setupNextL1Balloon_stats, addToL1History_stats]

lemma handleL1Pop_isPopping (s : L1Sim) : (handleL1Pop s).isPopping = false := by
  rw [handleL1Pop]
  exact setupNextL1Balloon_isPopping _

lemma handleL1Bank_stats (s : L1Sim) (h : s.isPopping = false) :
    (handleL1Bank s).stats =
      (s.stats.update s.currentBalloon.1
          (fun st => { st with score := st.score + s.currentPumps, pumps := st.pumps + s.currentPumps })).update
        s.currentBalloon.1 (fun st => { st with count := st.count + 1 }) := by
  rw [handleL1Bank, if_neg (by simp [h])]
  rw [setupNextL1Balloon_stats, addToL1History_stats]

lemma handleL1Bank_isPopping (s : L1Sim) (h : s.isPopping = false) :
    (handleL1Bank s).isPopping = false := by
  rw [handleL1Bank, if_neg (by simp [h])]
  exact setupNextL1Balloon_isPopping _

lemma l1Step_isPopping (s : L1Sim) (a : L1Act) (h : s.isPopping = false) :
    (l1Step s a).isPopping = false := by
  cases a with
  | bank => exact handleL1Bank_isPopping s h
  | pump =>
      simp only [l1Step, handleL1Pump, h, Bool.false_eq_true, if_false]
      split
      · exact handleL1Pop_isPopping _
      · rfl

/-- One action changes a color's count by exactly the cash-out indicator
plus the pop indicator of that action. -/
lemma l1Step_count (s : L1Sim) (a : L1Act) (c : Color) (h : s.isPopping = false) :
    ((l1Step s a).stats.get c).count =
      (s.stats.get c).count +
        (match a with
         | .bank => if s.isPopping = false ∧ s.currentBalloon.1 = c then 1 else 0
         | .pump => 0) +
        (match a with
         | .pump =>
            if s.isPopping = false ∧ s.currentPumps + 1 > s.currentBalloon.2 ∧
                s.currentBalloon.1 = c then 1 else 0
         | .bank => 0) := by
  cases a with
  | bank =>
      show ((handleL1Bank s).stats.get c).count = _
      rw [handleL1Bank_stats s h]
      simp only [Stats.get_update]
      rcases eq_or_ne s.currentBalloon.1 c with hc | hc <;> simp [hc, h]
  | pump =>
      show ((handleL1Pump s).stats.get c).count = _
      simp only [handleL1Pump, h, Bool.false_eq_true, if_false]
      by_cases hpop : s.currentPumps + 1 > s.currentBalloon.2
      · rw [if_pos (by simpa using hpop), handleL1Pop_stats]
        simp only [Stats.get_update]
        rcases eq_or_ne s.currentBalloon.1 c with hc | hc <;> simp [hc, h, hpop]
      · rw [if_neg (by simpa using hpop)]
        simp [h, hpop]

/-- No level-1 action ever changes the pops field of any color. -/
lemma l1Step_pops (s : L1Sim) (a : L1Act) (c : Color) :
    ((l1Step s a).stats.get c).pops = (s.stats.get c).pops := by
  cases a with
  | bank =>
      show ((handleL1Bank s).stats.get c).pops = _
      by_cases h : s.isPopping
      · rw [handleL1Bank, if_pos (by simp [h])]
      · rw [handleL1Bank_stats s (by simpa using h)]
        simp only [Stats.get_update]
        rcases eq_or_ne s.currentBalloon.1 c with hc | hc <;> simp [hc]
  | pump =>
      show ((handleL1Pump s).stats.get c).pops = _
      by_cases h : s.isPopping
      · rw [handleL1Pump, if_pos (by simp [h])]
      · simp only [handleL1Pump, eq_self_iff_true, Bool.not_eq_true] at h
        simp only [handleL1Pump, h, Bool.false_eq_true, if_false]
        split
        · rw [handleL1Pop_stats]
          simp only [Stats.get_update]
          rcases eq_or_ne s.currentBalloon.1 c with hc | hc <;> simp [hc]
        · rfl

/-- The level-1 stats bookkeeping along any action sequence: count grows
by the number of cash-outs plus the number of pops, and the pops field
is never written. -/
lemma l1Run_stats (acts : List L1Act) (s : L1Sim) (c : Color) (h : s.isPopping = false) :
    ((l1Run s acts).stats.get c).count =
      (s.stats.get c).count + l1CashOuts s acts c + l1PopEvents s acts c ∧
    ((l1Run s acts).stats.get c).pops = (s.stats.get c).pops := by
  induction acts generalizing s with
  | nil => simp [l1Run, l1CashOuts, l1PopEvents]
  | cons a as ih =>
      have hstep : l1Run s (a :: as) = l1Run (l1Step s a) as := rfl
      obtain ⟨ihc, ihp⟩ := ih (l1Step s a) (l1Step_isPopping s a h)
      constructor
      · rw [hstep, ihc, l1Step_count s a c h]
        cases a <;> simp only [l1CashOuts, l1PopEvents] <;> omega
      · rw [hstep, ihp, l1Step_pops]

lemma l1InitState_isPopping (draws : List Nat) : (l1InitState draws).isPopping = false :=
  setupNextL1Balloon_isPopping _

lemma l1InitState_stats (draws : List Nat) : (l1InitState draws).stats = defaultStats :=
  setupNextL1Balloon_stats _

/-! ## Supporting lemmas: level 2 control layer -/

lemma saveL2Strategy_isRunning (now : Nat) (g : L2Full) :
    (saveL2Strategy now g).isRunning = g.isRunning := rfl

lemma saveL2Strategy_sim (now : Nat) (g : L2Full) :
    (saveL2Strategy now g).sim = g.sim := rfl

lemma saveL2Strategy_unlockedLevels (now : Nat) (g : L2Full) :
    (saveL2Strategy now g).unlockedLevels = g.unlockedLevels := rfl

/-- A review completion is a pure no-op on the game state. -/
lemma endLevel2_review (g : L2Full) : endLevel2 true g = g := rfl

lemma endLevel2_complete (g : L2Full) :
    endLevel2 false g =
      { g with isRunning := false, unlockedLevels := max g.unlockedLevels 3 } := rfl

lemma skipL2ToEnd_eq (draws : List Draw) (now : Nat) (g : L2Full)
    (h : g.isRunning = true) :
    skipL2ToEnd draws now g =
      saveL2Strategy now
        { g with sim := skipL2Loop g.strategy.get (100 - g.sim.processedCount) draws g.sim } := by
  rw [skipL2ToEnd, if_neg (by simp [h])]
  rw [endLevel2_review]

/-- A completed ticked run stops the simulation and raises
unlockedLevels to at least 3. -/
lemma runL2TicksFull_complete (draws : List Draw) (g : L2Full)
    (h1 : g.sim.processedCount ≤ 100)
    (h2 : 100 ≤ g.sim.processedCount + draws.length) :
    (runL2TicksFull draws g).unlockedLevels = max g.unlockedLevels 3 ∧
    (runL2TicksFull draws g).isRunning = false := by
  induction draws generalizing g with
  | nil =>
      rw [runL2TicksFull, if_pos (by simpa using h2), endLevel2_complete]
      exact ⟨rfl, rfl⟩
  | cons d ds ih =>
      rw [runL2TicksFull]
      by_cases h100 : 100 ≤ g.sim.processedCount
      · rw [if_pos h100, endLevel2_complete]
        exact ⟨rfl, rfl⟩
      · rw [if_neg h100]
        exact ih _ (by rw [runL2SimulationStep_processedCount]; omega)
          (by rw [runL2SimulationStep_processedCount]; simp only [List.length_cons] at h2; omega)

lemma defaultStats_get (c : Color) : defaultStats.get c = statsTemplate := by
  cases c <;> rfl

/-! ## Claim theorems -/

/-- Claim C8: for every level-3 temperature-drift step, whatever random
delta in [-5, 5] is drawn, the resulting temperature lies in [0, 40]. -/
theorem c8_temperature_clamped (t change : ℤ) (h1 : -5 ≤ change) (h2 : change ≤ 5) :
    0 ≤ updateTempStep t change ∧ updateTempStep t change ≤ 40 := by
  simp only [updateTempStep]
  split_ifs <;> omega

/-- Witness for C8 at temperature 38 and drawn delta 5. -/
theorem c8_temperature_clamped_witness :
    (-5 : ℤ) ≤ 5 ∧ (5 : ℤ) ≤ 5 ∧
      (0 ≤ updateTempStep 38 5 ∧ updateTempStep 38 5 ≤ 40) :=
  ⟨by norm_num, by norm_num, c8_temperature_clamped 38 5 (by norm_num) (by norm_num)⟩

/-- Claim C9: for every balloon color and every temperature t in
[0, 40], the level-3 skewed range satisfies max' >= min' + 1. -/
theorem c9_skewed_range_wellformed (type : Color) (t : ℤ) (h1 : 0 ≤ t) (h2 : t ≤ 40) :
    (l3SkewedRange type t).1 + 1 ≤ (l3SkewedRange type t).2 :=
  le_max_left _ _

/-- Witness for C9 at the red color and temperature 30. -/
theorem c9_skewed_range_wellformed_witness :
    (0 : ℤ) ≤ 30 ∧ (30 : ℤ) ≤ 40 ∧
      (l3SkewedRange Color.red 30).1 + 1 ≤ (l3SkewedRange Color.red 30).2 :=
  ⟨by norm_num, by norm_num, c9_skewed_range_wellformed Color.red 30 (by norm_num) (by norm_num)⟩

/-- Claim C5: on a non-review level-1 completion, bestScore is updated
monotonically, replaced only on a strictly greater run total, and an
exact tie between the run total and bestScore is still flagged as a new
best. -/
theorem c5_best_score (s : L1End) (isReview : Bool) (h : isReview = false) :
    s.bestScore ≤ (endLevel1 isReview s).1.bestScore ∧
    (endLevel1 isReview s).1.bestScore =
      (if sumScores s.stats > s.bestScore then sumScores s.stats else s.bestScore) ∧
    (sumScores s.stats = s.bestScore → (endLevel1 isReview s).2 = true) := by
  subst h
  refine ⟨?_, ?_, ?_⟩
  · by_cases hgt : sumScores s.stats > s.bestScore <;> simp [endLevel1, hgt] <;> omega
  · by_cases hgt : sumScores s.stats > s.bestScore <;> simp [endLevel1, hgt]
  · intro he
    simp [endLevel1, he]

/-- Witness for C5: a run whose total exactly ties the stored best. -/
theorem c5_best_score_witness :
    (false = false) ∧
    (sumScores (⟨defaultStats, 0, 1⟩ : L1End).stats = (⟨defaultStats, 0, 1⟩ : L1End).bestScore ∧
      (endLevel1 false (⟨defaultStats, 0, 1⟩ : L1End)).2 = true) :=
  ⟨rfl, by decide, (c5_best_score ⟨defaultStats, 0, 1⟩ false rfl).2.2 (by decide)⟩

/-- Starting from a stopped state, the toggle reads the sliders and
resets the simulation sub-state. -/
lemma toggleL2Simulation_start (sliders : Strat4) (now : Nat) (g : L2Full)
    (h : g.isRunning = false) :
    toggleL2Simulation sliders now g =
      { isRunning := true, sim := resetL2State, strategy := sliders,
        pastStrategies := g.pastStrategies, unlockedLevels := g.unlockedLevels } := by
  simp [toggleL2Simulation, h, resetL2Simulation, updateL2Strategy, resetL2State]

/-- Pausing from a running state only stops the run and records a
strategy snapshot. -/
lemma toggleL2Simulation_pause (sliders : Strat4) (now : Nat) (g : L2Full)
    (h : g.isRunning = true) :
    toggleL2Simulation sliders now g = saveL2Strategy now { g with isRunning := false } := by
  simp [toggleL2Simulation, h]

/-- Claim C10: starting the level-2 simulation zeroes processedCount,
totalEarned and all per-color stats, so a pause followed by a resume
restarts the 100-balloon batch from zero. -/
theorem c10_start_resets (sliders : Strat4) (now : Nat) (g : L2Full)
    (h : g.isRunning = false) :
    (toggleL2Simulation sliders now g).isRunning = true ∧
    (toggleL2Simulation sliders now g).sim = resetL2State ∧
    (∀ (sliders2 sliders3 : Strat4) (now2 now3 : Nat) (g2 : L2Full),
      g2.isRunning = true →
      (toggleL2Simulation sliders2 now2 g2).sim = g2.sim ∧
      (toggleL2Simulation sliders3 now3 (toggleL2Simulation sliders2 now2 g2)).sim =
        resetL2State) := by
  refine ⟨?_, ?_, ?_⟩
  · rw [toggleL2Simulation_start sliders now g h]
  · rw [toggleL2Simulation_start sliders now g h]
  · intro s2 s3 n2 n3 g2 h2
    have hp : (toggleL2Simulation s2 n2 g2).isRunning = false := by
      rw [toggleL2Simulation_pause s2 n2 g2 h2, saveL2Strategy_isRunning]
    constructor
    · rw [toggleL2Simulation_pause s2 n2 g2 h2, saveL2Strategy_sim]
    · rw [toggleL2Simulation_start s3 n3 _ hp]

/-- Witness for C10: starting from a stopped mid-count state resets the
simulation, and a pause/resume cycle from a running state does too. -/
theorem c10_start_resets_witness :
    ({ isRunning := false, sim := ⟨defaultStats, 37, 42⟩, strategy := ⟨1, 2, 3, 4⟩,
        pastStrategies := [], unlockedLevels := 2 } : L2Full).isRunning = false ∧
    (toggleL2Simulation ⟨5, 5, 5, 5⟩ 0
        { isRunning := false, sim := ⟨defaultStats, 37, 42⟩, strategy := ⟨1, 2, 3, 4⟩,
          pastStrategies := [], unlockedLevels := 2 }).sim = resetL2State ∧
    l2StartedState.isRunning = true ∧
    (toggleL2Simulation ⟨7, 7, 7, 7⟩ 2
        (toggleL2Simulation ⟨6, 6, 6, 6⟩ 1 l2StartedState)).sim = resetL2State :=
  ⟨rfl,
   (c10_start_resets ⟨5, 5, 5, 5⟩ 0 _ rfl).2.1,
   rfl,
   ((c10_start_resets ⟨5, 5, 5, 5⟩ 0
        { isRunning := false, sim := ⟨defaultStats, 37, 42⟩, strategy := ⟨1, 2, 3, 4⟩,
          pastStrategies := [], unlockedLevels := 2 } rfl).2.2
      ⟨6, 6, 6, 6⟩ ⟨7, 7, 7, 7⟩ 1 2 l2StartedState rfl).2⟩

/-- Claim C1 (amended): one level-2 or level-3 resolution increments
count, pops on a pop (score and earned unchanged), adds strategyPumps to
score and the accumulated total on a cash-out, and never touches the
pumps field; the skip-loop body is the same function as the ticked body. -/
theorem c1_resolver_postcondition (strategy : Strategy) (c : Color) (m : Nat) :
    (∀ s : L2State,
      ((runL2SimulationStep strategy s c m).stats.get c).count = (s.stats.get c).count + 1 ∧
      ((runL2SimulationStep strategy s c m).stats.get c).pumps = (s.stats.get c).pumps ∧
      (strategy c > m →
        ((runL2SimulationStep strategy s c m).stats.get c).pops = (s.stats.get c).pops + 1 ∧
        ((runL2SimulationStep strategy s c m).stats.get c).score = (s.stats.get c).score ∧
        (runL2SimulationStep strategy s c m).totalEarned = s.totalEarned) ∧
      (¬ strategy c > m →
        ((runL2SimulationStep strategy s c m).stats.get c).score =
          (s.stats.get c).score + strategy c ∧
        ((runL2SimulationStep strategy s c m).stats.get c).pops = (s.stats.get c).pops ∧
        (runL2SimulationStep strategy s c m).totalEarned = s.totalEarned + strategy c)) ∧
    (∀ s : L3State,
      ((runL3SimulationStep strategy s c m).stats.get c).count = (s.stats.get c).count + 1 ∧
      ((runL3SimulationStep strategy s c m).stats.get c).pumps = (s.stats.get c).pumps ∧
      (strategy c > m →
        ((runL3SimulationStep strategy s c m).stats.get c).pops = (s.stats.get c).pops + 1 ∧
        ((runL3SimulationStep strategy s c m).stats.get c).score = (s.stats.get c).score ∧
        (runL3SimulationStep strategy s c m).totalScore = s.totalScore) ∧
      (¬ strategy c > m →
        ((runL3SimulationStep strategy s c m).stats.get c).score =
          (s.stats.get c).score + strategy c ∧
        ((runL3SimulationStep strategy s c m).stats.get c).pops = (s.stats.get c).pops ∧
        (runL3SimulationStep strategy s c m).totalScore = s.totalScore + strategy c)) ∧
    (∀ s : L2State, skipL2Step strategy s c m = runL2SimulationStep strategy s c m) := by
  refine ⟨fun s => ?_, fun s => ?_, fun s => rfl⟩ <;>
    by_cases hp : strategy c > m <;>
      simp [runL2SimulationStep, runL3SimulationStep, Stats.get_update, hp]

/-- Counterexample for C1 as stated: a level-2 cash-out (strategy 5,
maxPumps 10) leaves stats.red.pumps at 0 instead of raising it by the
claimed strategyPumps = 5. -/
theorem c1_counterexample :
    ¬ (((runL2SimulationStep (fun _ => 5) resetL2State Color.red 10).stats.get Color.red).pumps =
        (resetL2State.stats.get Color.red).pumps + 5) := by decide

/-- Witness for C1: the pop branch at maxPumps 3 and the cash-out branch
at maxPumps 10, both under strategy 5. -/
theorem c1_resolver_postcondition_witness :
    ((fun _ => 5 : Strategy) Color.red > 3 ∧
      ((runL2SimulationStep (fun _ => 5) resetL2State Color.red 3).stats.get Color.red).pops =
        (resetL2State.stats.get Color.red).pops + 1) ∧
    (¬ (fun _ => 5 : Strategy) Color.red > 10 ∧
      ((runL2SimulationStep (fun _ => 5) resetL2State Color.red 10).stats.get Color.red).score =
        (resetL2State.stats.get Color.red).score + (fun _ => 5 : Strategy) Color.red) :=
  ⟨⟨by decide,
    ((((c1_resolver_postcondition (fun _ => 5) Color.red 3).1 resetL2State).2.2.1) (by decide)).1⟩,
   ⟨by decide,
    ((((c1_resolver_postcondition (fun _ => 5) Color.red 10).1 resetL2State).2.2.2) (by decide)).1⟩⟩

/-- Claim C7: with the same sequence of random draws, skip-to-end's
resolution loop and the ticked run produce identical states (per-color
stats, processedCount and total earned). -/
theorem c7_skip_matches_ticked (strategy : Strategy) (draws : List Draw) (s : L2State)
    (h1 : s.processedCount ≤ 100) (h2 : 100 - s.processedCount ≤ draws.length) :
    skipL2Resolve strategy draws s = runL2Ticks strategy draws s := by
  rw [skipL2Resolve]
  exact (runL2Ticks_eq_skipL2Loop strategy (100 - s.processedCount) draws s (by omega) h2).symm

/-- Witness for C7 on a freshly reset run and one hundred red draws. -/
theorem c7_skip_matches_ticked_witness :
    resetL2State.processedCount ≤ 100 ∧
    100 - resetL2State.processedCount ≤ hundredRedDraws.length ∧
    skipL2Resolve (fun _ => 5) hundredRedDraws resetL2State =
      runL2Ticks (fun _ => 5) hundredRedDraws resetL2State :=
  ⟨by decide, by simp [hundredRedDraws],
   c7_skip_matches_ticked (fun _ => 5) hundredRedDraws resetL2State (by decide)
     (by simp [hundredRedDraws])⟩

/-- Claim C6: any level-2 run that reaches completion, through the
ticked loop from a fresh start or through skip-to-end from any
mid-run point of such a run, ends with processedCount exactly 100 and
with totalEarned equal to the sum of the four per-color scores. -/
theorem c6_completion_totals (strategy : Strategy) (draws pre : List Draw)
    (h : 100 ≤ draws.length) :
    (runL2Ticks strategy draws resetL2State).processedCount = 100 ∧
    (runL2Ticks strategy draws resetL2State).totalEarned =
      sumScores (runL2Ticks strategy draws resetL2State).stats ∧
    (skipL2Resolve strategy draws (runL2Ticks strategy pre resetL2State)).processedCount = 100 ∧
    (skipL2Resolve strategy draws (runL2Ticks strategy pre resetL2State)).totalEarned =
      sumScores (skipL2Resolve strategy draws (runL2Ticks strategy pre resetL2State)).stats := by
  have h0 : resetL2State.processedCount = 0 := rfl
  have hinv0 : resetL2State.totalEarned = sumScores resetL2State.stats := rfl
  have hm := runL2Ticks_processedCount strategy pre resetL2State (by rw [h0]; omega)
  have hm_le : (runL2Ticks strategy pre resetL2State).processedCount ≤ 100 := by
    rw [hm]
    exact min_le_left _ _
  refine ⟨?_, ?_, ?_, ?_⟩
  · rw [runL2Ticks_processedCount strategy draws resetL2State (by rw [h0]; omega), h0,
      min_eq_left (by omega)]
  · exact runL2Ticks_inv strategy draws resetL2State hinv0
  · rw [skipL2Resolve, skipL2Loop_processedCount strategy _ draws _ (by omega)]
    omega
  · exact skipL2Loop_inv strategy _ draws _ (runL2Ticks_inv strategy pre resetL2State hinv0)

/-- Witness for C6: strategy 5, one hundred red draws, skip taken right
after the start. -/
theorem c6_completion_totals_witness :
    100 ≤ hundredRedDraws.length ∧
    (runL2Ticks (fun _ => 5) hundredRedDraws resetL2State).processedCount = 100 ∧
    (skipL2Resolve (fun _ => 5) hundredRedDraws
        (runL2Ticks (fun _ => 5) [] resetL2State)).processedCount = 100 :=
  ⟨by simp [hundredRedDraws],
   (c6_completion_totals (fun _ => 5) hundredRedDraws [] (by simp [hundredRedDraws])).1,
   (c6_completion_totals (fun _ => 5) hundredRedDraws [] (by simp [hundredRedDraws])).2.2.1⟩

/-- Claim C3 (code bug): skip-to-end brings processedCount to 100 but,
because it finishes through endLevel2(true), it neither raises
unlockedLevels nor clears isRunning; only the ticked completion path
raises unlockedLevels to at least 3. -/
theorem c3_skip_does_not_unlock (draws : List Draw) (now : Nat) (g : L2Full)
    (h : g.isRunning = true) (h1 : g.sim.processedCount ≤ 100)
    (h2 : 100 - g.sim.processedCount ≤ draws.length) :
    (skipL2ToEnd draws now g).sim.processedCount = 100 ∧
    (skipL2ToEnd draws now g).unlockedLevels = g.unlockedLevels ∧
    (skipL2ToEnd draws now g).isRunning = true ∧
    (∀ (draws2 : List Draw) (g2 : L2Full), g2.sim.processedCount ≤ 100 →
      100 ≤ g2.sim.processedCount + draws2.length →
      (runL2TicksFull draws2 g2).unlockedLevels = max g2.unlockedLevels 3) := by
  rw [skipL2ToEnd_eq draws now g h]
  refine ⟨?_, ?_, ?_, ?_⟩
  · rw [saveL2Strategy_sim]
    show (skipL2Loop g.strategy.get (100 - g.sim.processedCount) draws g.sim).processedCount = 100
    rw [skipL2Loop_processedCount _ _ _ _ h2]
    omega
  · rw [saveL2Strategy_unlockedLevels]
  · rw [saveL2Strategy_isRunning]
    exact h
  · exact fun draws2 g2 hA hB => (runL2TicksFull_complete draws2 g2 hA hB).1

/-- Witness for C3: a run started at unlockedLevels 2 and skipped to the
end still has unlockedLevels 2 (level 3 stays locked) and is still
flagged as running. -/
theorem c3_skip_does_not_unlock_witness :
    l2StartedState.isRunning = true ∧
    l2StartedState.sim.processedCount ≤ 100 ∧
    100 - l2StartedState.sim.processedCount ≤ hundredRedDraws.length ∧
    (skipL2ToEnd hundredRedDraws 7 l2StartedState).sim.processedCount = 100 ∧
    (skipL2ToEnd hundredRedDraws 7 l2StartedState).unlockedLevels = 2 ∧
    (skipL2ToEnd hundredRedDraws 7 l2StartedState).isRunning = true :=
  ⟨rfl, by decide, by simp [hundredRedDraws, l2StartedState],
   (c3_skip_does_not_unlock hundredRedDraws 7 l2StartedState rfl (by decide)
      (by simp [hundredRedDraws, l2StartedState])).1,
   (c3_skip_does_not_unlock hundredRedDraws 7 l2StartedState rfl (by decide)
      (by simp [hundredRedDraws, l2StartedState])).2.1,
   (c3_skip_does_not_unlock hundredRedDraws 7 l2StartedState rfl (by decide)
      (by simp [hundredRedDraws, l2StartedState])).2.2.1⟩

/-- Claim C2 (amended): in levels 2 and 3 every resolved balloon keeps
stats[c].count = stats[c].pops + (cash-outs for c); in level 1 the pop
handler increments count but never pops, so count equals cash-outs plus
pop events while stats[c].pops stays 0. -/
theorem c2_count_invariant :
    (∀ (draws : List Nat) (acts : List L1Act) (c : Color),
      ((l1Run (l1InitState draws) acts).stats.get c).count =
        l1CashOuts (l1InitState draws) acts c + l1PopEvents (l1InitState draws) acts c ∧
      ((l1Run (l1InitState draws) acts).stats.get c).pops = 0) ∧
    (∀ (strategy : Strategy) (draws : List Draw) (c : Color),
      ((l2Run strategy draws resetL2State).stats.get c).count =
        ((l2Run strategy draws resetL2State).stats.get c).pops +
          drawCashOuts strategy draws c) ∧
    (∀ (strategy : Strategy) (draws : List Draw) (c : Color),
      ((l3Run strategy draws l3InitState).stats.get c).count =
        ((l3Run strategy draws l3InitState).stats.get c).pops +
          drawCashOuts strategy draws c) := by
  refine ⟨fun draws acts c => ?_, fun strategy draws c => ?_, fun strategy draws c => ?_⟩
  · obtain ⟨hc, hp⟩ := l1Run_stats acts (l1InitState draws) c (l1InitState_isPopping draws)
    rw [l1InitState_stats, defaultStats_get] at hc hp
    constructor
    · rw [hc]
      simp [statsTemplate]
    · rw [hp]
      rfl
  · rw [l2Run_count, l2Run_pops]
    have hz : resetL2State.stats.get c = statsTemplate := defaultStats_get c
    rw [hz, drawColorCount_eq_cash_add_pops strategy]
    simp [statsTemplate]
    omega
  · rw [l3Run_count, l3Run_pops]
    have hz : l3InitState.stats.get c = statsTemplate := defaultStats_get c
    rw [hz, drawColorCount_eq_cash_add_pops strategy]
    simp [statsTemplate]
    omega

/-- Counterexample for C2 as stated: pumping the first red balloon
(hidden threshold 6) seven times pops it; count becomes 1 while pops
stays 0 and no cash-out was recorded, so count differs from
pops + cash-outs. -/
theorem c2_counterexample :
    ¬ (((l1Run (l1InitState [6]) (List.replicate 7 .pump)).stats.get .red).count =
        ((l1Run (l1InitState [6]) (List.replicate 7 .pump)).stats.get .red).pops +
          l1CashOuts (l1InitState [6]) (List.replicate 7 .pump) .red) := by decide

lemma statsNeedReset_false {o : Option PStats} (h : statsNeedReset o = false) :
    o.isSome = true := by
  cases o with
  | none => simp [statsNeedReset] at h
  | some ps => rfl

/-- Closed form of loadGameState on a parsed document whose l1 and l2
records are present: the tutorial, bestScore and pastStrategies fields
are back-filled and everything else is kept. -/
lemma loadGameState_doc (u : Option Nat) (t : Option Tutorial) (r1 : PL1) (r2 : PL2)
    (l3f : Option PL3) :
    loadGameState (.doc ⟨u, t, some r1, some r2, l3f⟩) =
      .ok ⟨u, if t = none then some ⟨0, 0⟩ else t,
           some { r1 with bestScore :=
             if r1.bestScore = none ∨ r1.bestScore = some 0 then some 0 else r1.bestScore },
           some { r2 with pastStrategies :=
             if r2.pastStrategies = none then some [] else r2.pastStrategies },
           l3f⟩ := by
  simp only [loadGameState]
  by_cases ht : t = none <;> by_cases hb : (r1.bestScore = none ∨ r1.bestScore = some 0) <;>
    by_cases hps : r2.pastStrategies = none <;> simp [ht, hb, hps]

/-- Closed form of initGame when loading succeeded with all three level
records present: per-level stats are rebuilt when missing and both
running flags are forced to false. -/
lemma initGame_ok (st : StoredDoc) (u : Option Nat) (tv : Option Tutorial)
    (r1 : PL1) (r2 : PL2) (r3 : PL3)
    (hload : loadGameState st = .ok ⟨u, tv, some r1, some r2, some r3⟩) :
    initGame st = .ok
      ⟨u, tv,
       some (if statsNeedReset r1.stats then resetStatsL1 r1 else r1),
       some { (if statsNeedReset r2.stats then resetStatsL2 r2 else r2) with
              isRunning := some false },
       some { (if statsNeedReset r3.stats then resetStatsL3 r3 else r3) with
              isRunning := some false }⟩ := by
  simp only [initGame, hload]
  by_cases hs1 : statsNeedReset r1.stats = true <;>
    by_cases hs2 : statsNeedReset r2.stats = true <;>
      by_cases hs3 : statsNeedReset r3.stats = true <;>
        simp [hs1, hs2, hs3, resetStatsL1, resetStatsL2, resetStatsL3]

lemma l1_backfilled (r : PL1) (hbs : r.bestScore.isSome = true) :
    (if statsNeedReset r.stats then resetStatsL1 r else r).bestScore.isSome = true ∧
    (if statsNeedReset r.stats then resetStatsL1 r else r).stats.isSome = true := by
  constructor
  · split
    · simpa [resetStatsL1] using hbs
    · exact hbs
  · split
    · simp [resetStatsL1]
    · next h => exact statsNeedReset_false (by simpa using h)

lemma l2_backfilled (r : PL2) (hps : r.pastStrategies.isSome = true) :
    (if statsNeedReset r.stats then resetStatsL2 r else r).pastStrategies.isSome = true ∧
    (if statsNeedReset r.stats then resetStatsL2 r else r).stats.isSome = true := by
  constructor
  · split
    · simpa [resetStatsL2] using hps
    · exact hps
  · split
    · simp [resetStatsL2]
    · next h => exact statsNeedReset_false (by simpa using h)

lemma l3_backfilled (r : PL3) :
    (if statsNeedReset r.stats then resetStatsL3 r else r).stats.isSome = true := by
  split
  · simp [resetStatsL3]
  · next h => exact statsNeedReset_false (by simpa using h)

/-- Claim C4 (amended): when the stored document carries its l1, l2 and
l3 records, loading succeeds and back-fills the tutorial record,
bestScore, pastStrategies and per-level stats, and clears both running
flags; but loading is not total on arbitrary stored documents. -/
theorem c4_load_backfills (d : PGameState)
    (h1 : d.l1.isSome = true) (h2 : d.l2.isSome = true) (h3 : d.l3.isSome = true) :
    ∃ g : PGameState, initGame (.doc d) = .ok g ∧
      g.tutorial.isSome = true ∧
      (∃ r1, g.l1 = some r1 ∧ r1.bestScore.isSome = true ∧ r1.stats.isSome = true) ∧
      (∃ r2, g.l2 = some r2 ∧ r2.pastStrategies.isSome = true ∧ r2.stats.isSome = true ∧
        r2.isRunning = some false) ∧
      (∃ r3, g.l3 = some r3 ∧ r3.stats.isSome = true ∧ r3.isRunning = some false) := by
  obtain ⟨u, t, dl1, dl2, dl3⟩ := d
  simp only [] at h1 h2 h3
  obtain ⟨r1, e1⟩ := Option.isSome_iff_exists.mp h1
  obtain ⟨r2, e2⟩ := Option.isSome_iff_exists.mp h2
  obtain ⟨r3, e3⟩ := Option.isSome_iff_exists.mp h3
  subst e1 e2 e3
  rw [initGame_ok _ u _ _ _ r3 (loadGameState_doc u t r1 r2 (some r3))]
  refine ⟨_, rfl, ?_, ⟨_, rfl, ?_, ?_⟩, ⟨_, rfl, ?_, ?_, rfl⟩, ⟨_, rfl, ?_, rfl⟩⟩
  · by_cases ht : t = none <;> simp [ht, Option.isSome_iff_ne_none]
  · exact (l1_backfilled _ (by
      by_cases hb : (r1.bestScore = none ∨ r1.bestScore = some 0) <;>
        simp [hb, Option.isSome_iff_ne_none, not_or] <;> simp [not_or] at hb <;>
          simp [hb.1])).1
  · exact (l1_backfilled _ (by
      by_cases hb : (r1.bestScore = none ∨ r1.bestScore = some 0) <;>
        simp [hb, Option.isSome_iff_ne_none, not_or] <;> simp [not_or] at hb <;>
          simp [hb.1])).2
  · exact (l2_backfilled _ (by
      by_cases hp : r2.pastStrategies = none <;>
        simp [hp, Option.isSome_iff_ne_none])).1
  · exact (l2_backfilled _ (by
      by_cases hp : r2.pastStrategies = none <;>
        simp [hp, Option.isSome_iff_ne_none])).2
  · exact l3_backfilled _

/-- Counterexample for C4 as stated: loading is not failure-free.  The
valid JSON document {} (no l1/l2/l3 records) makes the load path throw a
TypeError when it dereferences gameState.l1, and a malformed stored
string makes JSON.parse throw a SyntaxError. -/
theorem c4_counterexample :
    initGame (.doc ⟨none, none, none, none, none⟩) = .error .typeError ∧
    initGame .malformed = .error .parseError :=
  ⟨rfl, rfl⟩

/-- Witness for C4 on the default game-state document. -/
theorem c4_load_backfills_witness :
    getDefaultGameState.l1.isSome = true ∧
    getDefaultGameState.l2.isSome = true ∧
    getDefaultGameState.l3.isSome = true ∧
    (∃ g : PGameState, initGame (.doc getDefaultGameState) = .ok g ∧
      g.tutorial.isSome = true ∧
      (∃ r1, g.l1 = some r1 ∧ r1.bestScore.isSome = true ∧ r1.stats.isSome = true) ∧
      (∃ r2, g.l2 = some r2 ∧ r2.pastStrategies.isSome = true ∧ r2.stats.isSome = true ∧
        r2.isRunning = some false) ∧
      (∃ r3, g.l3 = some r3 ∧ r3.stats.isSome = true ∧ r3.isRunning = some false)) :=
  ⟨rfl, rfl, rfl, c4_load_backfills getDefaultGameState rfl rfl rfl⟩

